import Mathlib

/-!
Verification model of the batch package-operation coordinator of
theNu_Katoolin_4.0 (src/core/tools.py) and the command sanitizer
(src/core/utils.py).

Python strings are modelled as Lean `String`; the Python substring test
`pat in s` is modelled by `strContains s pat` (infix search over the
character list).  External shell execution is modelled by passing the
environment's response (exit code, stdout, stderr) as an explicit
argument: either a function `run : String → Nat × String × String`
mapping the executed command string to its result, or, for the
per-package concurrent paths, a record per package carrying the result
of its `apt` invocation.  Raised Python exceptions are modelled as
explicit outcome constructors.
-/

/-- Decides whether `p` occurs as a contiguous infix of `l`, mirroring the
Python substring operator `in` on strings (the empty pattern occurs in
every string). -/
def charsContain : List Char → List Char → Bool
  | [], p => p.isEmpty
  | c :: rest, p => p.isPrefixOf (c :: rest) || charsContain rest p

/-- Model of the Python expression `pat in s` for strings. -/
def strContains (s pat : String) : Bool :=
  charsContain s.data pat.data

/-- Dangerous substrings checked by `sanitize_command` in
src/core/utils.py (lines 140-149), in source order.  Braces, backtick
and apostrophes are written with `\xNN` escapes. -/
def dangerousPatterns : List String :=
  [";", "&&", "||",
   "\x60", "$(", "$\x7b",
   ">", ">>", "<",
   "|",
   "rm -rf /", "rm -rf /*",
   "mkfs", "dd if=/dev/zero",
   ":()\x7b:|:&\x7d;:",
   "/etc/passwd", "/etc/shadow"]

/-- Model of `sanitize_command` (src/core/utils.py lines 126-161): the
first dangerous pattern contained in the command raises `SecurityError`
(modelled as `Except.error` carrying the message); otherwise the command
is returned unchanged. -/
def sanitize_command (command : String) : Except String String :=
  match dangerousPatterns.find? (fun p => strContains command p) with
  | some p => Except.error ("Command contains potentially dangerous pattern: " ++ p)
  | none => Except.ok command

/-- Model of the security-relevant prefix of `run_command`
(src/core/utils.py lines 163-231): when `check_security` is true the
command is passed through `sanitize_command` (a `SecurityError` is
re-raised); the returned string is the command actually handed to the
shell, which `sanitize_command` never alters. -/
def run_command_checked (command : String) (check_security : Bool) : Except String String :=
  if check_security then sanitize_command command else Except.ok command

/-- Skippable stderr patterns of `_is_skippable_error`
(src/core/tools.py lines 624-629). -/
def skippablePatterns : List String :=
  ["Unable to locate package",
   "has no installation candidate",
   "couldn\x27t be found",
   "package not found"]

/-- Pinned Python packages of the `python_version_conflicts` list in
`_is_skippable_error` (src/core/tools.py lines 637-644); each is
skippable when it occurs together with "python3 (>= 3.13~)". -/
def pythonConflictPackages : List String :=
  ["python3-charset-normalizer",
   "python3-psycopg2",
   "python3-tk",
   "python3-zope.interface",
   "python3-pydantic-core",
   "python3-uvloop"]

/-- Model of `_is_skippable_error` (src/core/tools.py lines 614-661):
classification of a stderr text as a non-critical, skippable failure. -/
def is_skippable_error (stderr : String) : Bool :=
  if skippablePatterns.any (fun p => strContains stderr p) then true
  else if pythonConflictPackages.any
      (fun p => strContains stderr p && strContains stderr "python3 (>= 3.13~)") then true
  else if strContains stderr "pkgProblemResolver::Resolve generated breaks" then true
  else if strContains stderr "python3 (>= 3.13~)" && strContains stderr "python3:amd64=3.12" then true
  else if strContains stderr "caused by held packages" then true
  else false

/-- Fallback line extraction at the end of `_get_error_reason`
(src/core/tools.py lines 692-695): first non-empty stripped line
containing "Error:", else the first non-empty line, else "Unknown
error", truncated to 80 characters. -/
def firstErrorLine (stderr : String) : String :=
  let lines := ((stderr.splitOn "\n").map String.trim).filter (fun l => l ≠ "")
  let errorLine := ((lines.find? (fun l => strContains l "Error:")).getD (lines.headD "Unknown error"))
  if errorLine.length > 80 then errorLine.take 80 ++ "..." else errorLine

/-- Model of `_get_error_reason` (src/core/tools.py lines 663-695):
human-readable reason derived from a stderr text, first match wins. -/
def get_error_reason (stderr : String) : String :=
  if strContains stderr "Unable to locate package" then
    "Package not found in repositories"
  else if strContains stderr "python3-charset-normalizer" && strContains stderr "python3 (>= 3.13~)" then
    "Python 3.13+ required but system has 3.12 (version conflict)"
  else if strContains stderr "python3-psycopg2" && strContains stderr "python3 (>= 3.13~)" then
    "Python 3.13+ required but system has 3.12 (version conflict)"
  else if strContains stderr.toLower "dependency" && strContains stderr.toLower "conflict" then
    "Dependency conflicts (version mismatch)"
  else if strContains stderr.toLower "broken" then
    "Broken dependencies"
  else if strContains stderr "Permission denied" then
    "Permission denied"
  else if strContains stderr "Could not resolve" || strContains stderr "Failed to fetch" then
    "Network error"
  else if strContains stderr "No space left" then
    "Insufficient disk space"
  else if strContains stderr "pkgProblemResolver::Resolve generated breaks" then
    "Complex dependency conflicts detected"
  else firstErrorLine stderr

/-- Per-package outcome of one `apt install -y <name>` invocation in the
concurrent install path, together with whether the fallback chain
`_try_installation_fallbacks` (itself a sequence of further external
commands) succeeds for this package.  The fallback verdict is part of
the environment because it depends only on the results of those further
external commands. -/
structure ToolRun where
  name : String
  exitCode : Nat
  stderr : String
  fallbackOk : Bool
deriving DecidableEq

/-- Per-package classification produced by the concurrent install path:
the `Success`/`Skipped(reason)`/`Failed(reason)` buckets of the spec. -/
inductive InstallClass where
  | success : InstallClass
  | skipped : String → InstallClass
  | failed : String → InstallClass
deriving DecidableEq

/-- Model of the inner closure `install_single_tool` of
`_parallel_install_tools` (src/core/tools.py lines 334-369).  The
command is sanitized inside `run_command`; a `SecurityError` would be
caught by the closure's generic handler and recorded as a failure.  On
non-zero exit the fallback chain runs first; only if it fails is the
stderr tested for skippability. -/
def install_single_tool (r : ToolRun) : InstallClass :=
  match sanitize_command ("apt install -y " ++ r.name) with
  | Except.error e => InstallClass.failed e
  | Except.ok _ =>
    if r.exitCode = 0 then InstallClass.success
    else if r.fallbackOk then InstallClass.success
    else if is_skippable_error r.stderr then InstallClass.skipped (get_error_reason r.stderr)
    else InstallClass.failed r.stderr

/-- Boolean returned by the closure `install_single_tool`: `True` for a
successful or skipped package, `False` only for a failed one. -/
def installResultBool (r : ToolRun) : Bool :=
  match install_single_tool r with
  | InstallClass.failed _ => false
  | _ => true

/-- Value of the `successful` variable of `_parallel_install_tools`
(line 376): `sum(results)`, the number of `True` returns of the
closure. -/
def successfulCount (rs : List ToolRun) : Nat :=
  (rs.filter (fun r => installResultBool r)).length

/-- Packages appended to the `failed_tools` list of the closure. -/
def failedList (rs : List ToolRun) : List ToolRun :=
  rs.filter (fun r => match install_single_tool r with
    | InstallClass.failed _ => true
    | _ => false)

/-- Packages appended to the `skipped_tools` list of the closure. -/
def skippedList (rs : List ToolRun) : List ToolRun :=
  rs.filter (fun r => match install_single_tool r with
    | InstallClass.skipped _ => true
    | _ => false)

/-- Result of one batch-level call of the coordinator.  `ok b` is a
normal return of the Python function with value `b`; the remaining
constructors are the typed exceptions it can raise.
`toolInstallationError` additionally records the failed package names
printed to the user before the exception propagates. -/
inductive BatchOutcome where
  | ok : Bool → BatchOutcome
  | networkError : String → BatchOutcome
  | permissionError : String → BatchOutcome
  | toolInstallationError : String → List String → BatchOutcome
  | securityError : String → BatchOutcome
deriving DecidableEq

/-- Model of the success decision of `_parallel_install_tools`
(src/core/tools.py lines 371-441).  `successful` is `sum(results)` and
therefore counts skipped packages, exactly as in the source.  The float
comparison `failed / installable <= 0.3` is modelled exactly on the
rationals as `10 * failed ≤ 3 * installable`; the two comparisons agree
for every feasible batch size.  The `ToolInstallationError` raised in
the threshold branch is re-wrapped by the surrounding
`except Exception` clause, hence the composed message. -/
def parallel_install_tools (rs : List ToolRun) : BatchOutcome :=
  let total := rs.length
  let successful := successfulCount rs
  let failed := (failedList rs).length
  let skipped := (skippedList rs).length
  let installable := total - skipped
  if installable = 0 then BatchOutcome.ok false
  else if successful = installable then BatchOutcome.ok true
  else if failed = 0 then BatchOutcome.ok true
  else if 10 * failed ≤ 3 * installable then BatchOutcome.ok true
  else BatchOutcome.toolInstallationError
    ("Error during parallel installation: Too many installation failures: "
      ++ toString failed ++ "/" ++ toString installable ++ " installable tools failed")
    (((failedList rs).take 5).map (fun r => r.name))

/-- Combined command built by `_batch_install_tools` (lines 260-261):
the package names are space-joined into one `apt install -y`
invocation. -/
def batch_install_cmd (tools : List String) : String :=
  "apt install -y " ++ String.intercalate " " tools

/-- Literal part of the regular expression
`Unable to locate package ([^\s]+)` used in `_batch_install_tools`
(line 294). -/
def unableLiteral : List Char :=
  "Unable to locate package ".data

/-- Search loop of `re.search(r"Unable to locate package ([^\s]+)", s)`:
the first position where the literal is followed by at least one
non-whitespace character yields the maximal non-whitespace run as the
captured group. -/
def unable_package_search : List Char → Option (List Char)
  | [] => none
  | c :: rest =>
    if unableLiteral.isPrefixOf (c :: rest) then
      let name := ((c :: rest).drop unableLiteral.length).takeWhile (fun ch => !ch.isWhitespace)
      if name.isEmpty then unable_package_search rest else some name
    else unable_package_search rest

/-- Captured package name of the missing-package regular expression, if
any. -/
def extract_unable_package (stderr : String) : Option String :=
  (unable_package_search stderr.data).map (fun cs => String.mk cs)

/-- Stderr classification chain of `_batch_install_tools` on non-zero
exit (src/core/tools.py lines 279-307), in source order: network,
permission, missing package (with the regex capture, defaulting to
"some packages"), then the generic failure. -/
def classify_batch_install_failure (stderr : String) : BatchOutcome :=
  if strContains stderr "Could not resolve" || strContains stderr "Failed to fetch" then
    BatchOutcome.networkError "Network error while installing tools: Could not fetch packages"
  else if strContains stderr "Permission denied" || strContains stderr "requires root privileges" then
    BatchOutcome.permissionError "Permission denied while installing tools. Please run as root."
  else if strContains stderr "Unable to locate package" then
    BatchOutcome.toolInstallationError
      ("Package " ++ ((extract_unable_package stderr).getD "some packages")
        ++ " not found in the repositories") []
  else BatchOutcome.toolInstallationError "Failed to install some tools" []

/-- Model of `_batch_install_tools` (src/core/tools.py lines 247-307):
one combined invocation; sanitization happens inside `run_command`; a
zero exit returns success for all packages, a non-zero exit is
classified by `classify_batch_install_failure`. -/
def batch_install_tools (tools : List String) (run : String → Nat × String × String) : BatchOutcome :=
  match sanitize_command (batch_install_cmd tools) with
  | Except.error e => BatchOutcome.securityError e
  | Except.ok cmd =>
    let r := run cmd
    if r.1 = 0 then BatchOutcome.ok true
    else classify_batch_install_failure r.2.2

/-- Model of the dispatch in `install_tools` (src/core/tools.py lines
220-226): at most three packages take the combined batch path, more
take the concurrent per-package path, whose per-package runs are drawn
from the same environment. -/
def install_tools (tools : List String) (run : String → Nat × String × String)
    (fallbackOk : String → Bool) : BatchOutcome :=
  if tools.length ≤ 3 then batch_install_tools tools run
  else parallel_install_tools (tools.map (fun t =>
    let r := run ("apt install -y " ++ t)
    ⟨t, r.1, r.2.2, fallbackOk t⟩))

/-- Per-package outcome of one `apt remove -y <name>` invocation in the
concurrent remove path. -/
structure RemoveRun where
  name : String
  exitCode : Nat
  stderr : String
deriving DecidableEq

/-- Per-package classification of the concurrent remove path:
`notInstalled` is the informational Skipped bucket. -/
inductive RemoveClass where
  | success : RemoveClass
  | notInstalled : RemoveClass
  | failed : String → RemoveClass
deriving DecidableEq

/-- Model of the inner closure `remove_single_tool` of
`_parallel_remove_tools` (src/core/tools.py lines 906-935): zero exit
is success; on non-zero exit a stderr containing "Unable to locate
package" or "is not installed" increments the informational
`not_installed` counter, anything else is a failure. -/
def remove_single_tool (r : RemoveRun) : RemoveClass :=
  match sanitize_command ("apt remove -y " ++ r.name) with
  | Except.error e => RemoveClass.failed e
  | Except.ok _ =>
    if r.exitCode = 0 then RemoveClass.success
    else if strContains r.stderr "Unable to locate package"
        || strContains r.stderr "is not installed" then RemoveClass.notInstalled
    else RemoveClass.failed r.stderr

/-- Packages appended to `failed_tools` by the remove closure. -/
def removeFailedList (rs : List RemoveRun) : List RemoveRun :=
  rs.filter (fun r => match remove_single_tool r with
    | RemoveClass.failed _ => true
    | _ => false)

/-- Value of the `not_installed` counter of `_parallel_remove_tools`. -/
def notInstalledCount (rs : List RemoveRun) : Nat :=
  (rs.filter (fun r => remove_single_tool r = RemoveClass.notInstalled)).length

/-- Model of the aggregate decision of `_parallel_remove_tools`
(src/core/tools.py lines 937-973): with no failures, the call returns
`false` when every package was not installed and `true` otherwise; any
failure raises a `ToolInstallationError` listing every failed package
(re-wrapped by the surrounding `except Exception` clause). -/
def parallel_remove_tools (rs : List RemoveRun) : BatchOutcome :=
  if removeFailedList rs = [] then
    if notInstalledCount rs = rs.length then BatchOutcome.ok false
    else BatchOutcome.ok true
  else BatchOutcome.toolInstallationError
    ("Error during parallel removal: Failed to remove "
      ++ toString (removeFailedList rs).length ++ " out of " ++ toString rs.length ++ " tools")
    ((removeFailedList rs).map (fun r => r.name))

/-- Combined command built by `_batch_remove_tools` (lines 841-842). -/
def batch_remove_cmd (tools : List String) : String :=
  "apt remove -y " ++ String.intercalate " " tools

/-- Model of `_batch_remove_tools` (src/core/tools.py lines 828-879):
permission errors raise; a stderr containing "Unable to locate package"
or "is not installed" is a warning and returns `false` without raising;
anything else on non-zero exit raises a generic failure. -/
def batch_remove_tools (tools : List String) (run : String → Nat × String × String) : BatchOutcome :=
  match sanitize_command (batch_remove_cmd tools) with
  | Except.error e => BatchOutcome.securityError e
  | Except.ok cmd =>
    let r := run cmd
    if r.1 = 0 then BatchOutcome.ok true
    else if strContains r.2.2 "Permission denied" || strContains r.2.2 "requires root privileges" then
      BatchOutcome.permissionError "Permission denied while removing tools. Please run as root."
    else if strContains r.2.2 "Unable to locate package" || strContains r.2.2 "is not installed" then
      BatchOutcome.ok false
    else BatchOutcome.toolInstallationError "Failed to remove some tools" []

/-- Model of the dispatch in `remove_tools` (src/core/tools.py lines
807-813): at most three packages take the combined batch path. -/
def remove_tools (tools : List String) (run : String → Nat × String × String) : BatchOutcome :=
  if tools.length ≤ 3 then batch_remove_tools tools run
  else parallel_remove_tools (tools.map (fun t =>
    let r := run ("apt remove -y " ++ t)
    ⟨t, r.1, r.2.2⟩))

/-- Per-package outcome of one `apt install --only-upgrade -y <name>`
invocation in the concurrent update path. -/
structure UpdateRun where
  name : String
  exitCode : Nat
  stderr : String
deriving DecidableEq

/-- Per-package classification of the concurrent update path:
`alreadyNewest` is the informational bucket. -/
inductive UpdateClass where
  | success : UpdateClass
  | alreadyNewest : UpdateClass
  | failed : String → UpdateClass
deriving DecidableEq

/-- Model of the inner closure `update_single_tool` of
`_parallel_update_tools` (src/core/tools.py lines 1226-1254): on
non-zero exit only a stderr containing "is already the newest version"
is informational, anything else is a failure. -/
def update_single_tool (r : UpdateRun) : UpdateClass :=
  match sanitize_command ("apt install --only-upgrade -y " ++ r.name) with
  | Except.error e => UpdateClass.failed e
  | Except.ok _ =>
    if r.exitCode = 0 then UpdateClass.success
    else if strContains r.stderr "is already the newest version" then UpdateClass.alreadyNewest
    else UpdateClass.failed r.stderr

/-- Packages appended to `failed_tools` by the update closure. -/
def updateFailedList (rs : List UpdateRun) : List UpdateRun :=
  rs.filter (fun r => match update_single_tool r with
    | UpdateClass.failed _ => true
    | _ => false)

/-- Model of the aggregate decision of `_parallel_update_tools`
(src/core/tools.py lines 1256-1288): with no failures the call returns
`true`; any failure raises a `ToolInstallationError` listing every
failed package (re-wrapped by the surrounding handler). -/
def parallel_update_tools (rs : List UpdateRun) : BatchOutcome :=
  if updateFailedList rs = [] then BatchOutcome.ok true
  else BatchOutcome.toolInstallationError
    ("Error during parallel update: Failed to update "
      ++ toString (updateFailedList rs).length ++ " out of " ++ toString rs.length ++ " tools")
    ((updateFailedList rs).map (fun r => r.name))

/-- Fixed tail of the command built by `check_installed`
(src/core/tools.py line 1306); apostrophes written as `\x27`. -/
def dpkgTail : String :=
  " 2>/dev/null | grep -q \x27Status: install ok installed\x27"

/-- Command string built by `check_installed`. -/
def check_installed_cmd (tool : String) : String :=
  "dpkg -s " ++ tool ++ dpkgTail

/-- Result of `check_installed`: either a boolean return or the
`ToolInstallationError` produced by its generic exception handler. -/
inductive CheckResult where
  | installed : Bool → CheckResult
  | toolError : String → CheckResult
deriving DecidableEq

/-- Model of `check_installed` (src/core/tools.py lines 1290-1323): the
command goes through `run_command` with the default security check; a
`SecurityError` raised there is caught by the generic handler and
converted into a `ToolInstallationError`. -/
def check_installed (run : String → Nat) (tool : String) : CheckResult :=
  match run_command_checked (check_installed_cmd tool) true with
  | Except.error e =>
    CheckResult.toolError ("Error checking if tool " ++ tool ++ " is installed: " ++ e)
  | Except.ok cmd => CheckResult.installed (run cmd = 0)

/-- Concrete parallel-install environment with four packages: three
install cleanly, the fourth fails with a skippable missing-package
stderr (no fallback succeeds). -/
def c1Runs : List ToolRun :=
  [⟨"t1", 0, "", false⟩, ⟨"t2", 0, "", false⟩, ⟨"t3", 0, "", false⟩,
   ⟨"t4", 100, "E: Unable to locate package t4", false⟩]

/-- Concrete parallel-install environment with seven packages: one
installs cleanly, three fail with skippable missing-package stderr,
three fail with a non-skippable stderr (no fallback succeeds
anywhere). -/
def c2Runs : List ToolRun :=
  [⟨"t1", 0, "", false⟩,
   ⟨"t2", 100, "E: Unable to locate package t2", false⟩,
   ⟨"t3", 100, "E: Unable to locate package t3", false⟩,
   ⟨"t4", 100, "E: Unable to locate package t4", false⟩,
   ⟨"t5", 100, "E: unrecoverable failure", false⟩,
   ⟨"t6", 100, "E: unrecoverable failure", false⟩,
   ⟨"t7", 100, "E: unrecoverable failure", false⟩]

/-- Concrete environment for the three-package install scenario: the
combined command exits non-zero with the missing-package stderr of the
fake package. -/
def c5Run : String → Nat × String × String :=
  fun _ => (100, "", "E: Unable to locate package totally-fake-pkg-xyz")

theorem charsContain_append_right (a b p : List Char) (h : charsContain b p = true) :
    charsContain (a ++ b) p = true := by
  induction a with
  | nil => simpa using h
  | cons c a' ih => simp [charsContain, ih]

theorem find?_isSome_of_pred {α : Type} (l : List α) (p : α → Bool) (a : α)
    (ha : a ∈ l) (hp : p a = true) : ∃ b, l.find? p = some b := by
  induction l with
  | nil => cases ha
  | cons x xs ih =>
    cases hx : p x with
    | true => exact ⟨x, by simp [List.find?, hx]⟩
    | false =>
      rcases List.mem_cons.mp ha with rfl | ha2
      · rw [hx] at hp; cases hp
      · obtain ⟨b, hb⟩ := ih ha2
        exact ⟨b, by simp [List.find?, hx, hb]⟩

theorem filter_nil_of_false {α : Type} (p : α → Bool) (l : List α)
    (h : ∀ a ∈ l, p a = false) : l.filter p = [] := by
  rw [List.filter_eq_nil_iff]
  intro a ha
  simp [h a ha]

theorem filter_all_of_true {α : Type} (p : α → Bool) (l : List α)
    (h : ∀ a ∈ l, p a = true) : l.filter p = l := by
  rw [List.filter_eq_self]
  intro a ha
  exact h a ha

/-- Claim C1: the spec asserts `succeeded + skipped + failed == total`
with every package in exactly one bucket.  The code violates this: in
`_parallel_install_tools` the reported success count is `sum(results)`,
and `install_single_tool` returns `True` for skipped packages, so a
skipped package is counted both as successfully installed and as
skipped.  On the concrete four-package environment `c1Runs` the code
reports 4 succeeded, 1 skipped, 0 failed out of 4 — the sum is 5, not
4 — contradicting the spec and the code's own summary display. -/
theorem claim_C1_reported_counts_not_partition :
    successfulCount c1Runs = 4
    ∧ (skippedList c1Runs).length = 1
    ∧ (failedList c1Runs).length = 0
    ∧ c1Runs.length = 4
    ∧ successfulCount c1Runs + (skippedList c1Runs).length + (failedList c1Runs).length
        ≠ c1Runs.length
    ∧ parallel_install_tools c1Runs = BatchOutcome.ok true := by decide

/-- Claim C2: the spec asserts that for an install batch with
`installable > 0` and `failed > 0`, a failure rate above 0.3 raises a
`ToolInstallationError`.  The code violates this whenever
`failed == skipped`: then `successful = total - failed` equals
`installable = total - skipped` and the branch commented "All
installable tools were installed successfully" returns `True` before
the threshold is ever computed.  On `c2Runs` (7 tools, 1 success, 3
skipped, 3 failed) the failure rate is 3/4 = 0.75 > 0.3, yet the call
returns success. -/
theorem claim_C2_threshold_bypassed_when_failed_eq_skipped :
    parallel_install_tools c2Runs = BatchOutcome.ok true
    ∧ (failedList c2Runs).length = 3
    ∧ (skippedList c2Runs).length = 3
    ∧ c2Runs.length = 7
    ∧ 10 * (failedList c2Runs).length
        > 3 * (c2Runs.length - (skippedList c2Runs).length) := by decide

/-- Claim C3: for an install batch of at most three packages,
`_batch_install_tools` issues one combined invocation whose command is
the space-joined package list, and on non-zero exit classifies stderr in
the listed order (network, permission, missing package with the name
extracted by the regular-expression search, then the generic failure),
each case applying when the earlier substrings are absent, exactly as
the claim's closing "any other non-zero exit" indicates; on zero exit it
returns success for all packages. -/
theorem claim_C3_batch_install_classification
    (tools : List String) (run : String → Nat × String × String)
    (e : Nat) (sout serr : String)
    (hok : sanitize_command (batch_install_cmd tools) = Except.ok (batch_install_cmd tools))
    (hrun : run (batch_install_cmd tools) = (e, sout, serr)) :
    batch_install_cmd tools = "apt install -y " ++ String.intercalate " " tools
    ∧ (e = 0 → batch_install_tools tools run = BatchOutcome.ok true)
    ∧ (e ≠ 0 → (strContains serr "Could not resolve" || strContains serr "Failed to fetch") = true →
        batch_install_tools tools run
          = BatchOutcome.networkError "Network error while installing tools: Could not fetch packages")
    ∧ (e ≠ 0 → strContains serr "Could not resolve" = false → strContains serr "Failed to fetch" = false →
        (strContains serr "Permission denied" || strContains serr "requires root privileges") = true →
        batch_install_tools tools run
          = BatchOutcome.permissionError "Permission denied while installing tools. Please run as root.")
    ∧ (∀ name, e ≠ 0 → strContains serr "Could not resolve" = false → strContains serr "Failed to fetch" = false →
        strContains serr "Permission denied" = false → strContains serr "requires root privileges" = false →
        strContains serr "Unable to locate package" = true →
        extract_unable_package serr = some name →
        batch_install_tools tools run
          = BatchOutcome.toolInstallationError ("Package " ++ name ++ " not found in the repositories") [])
    ∧ (e ≠ 0 → strContains serr "Could not resolve" = false → strContains serr "Failed to fetch" = false →
        strContains serr "Permission denied" = false → strContains serr "requires root privileges" = false →
        strContains serr "Unable to locate package" = false →
        batch_install_tools tools run
          = BatchOutcome.toolInstallationError "Failed to install some tools" []) := by
  refine ⟨rfl, ?_, ?_, ?_, ?_, ?_⟩
  · intro he
    simp [batch_install_tools, hok, hrun, he]
  · intro he hnet
    simp [batch_install_tools, hok, hrun, he, classify_batch_install_failure, hnet]
  · intro he hcr hff hperm
    simp [batch_install_tools, hok, hrun, he, classify_batch_install_failure, hcr, hff, hperm]
  · intro name he hcr hff hpd hrr hul hex
    simp [batch_install_tools, hok, hrun, he, classify_batch_install_failure, hcr, hff, hpd, hrr, hul, hex]
  · intro he hcr hff hpd hrr hul
    simp [batch_install_tools, hok, hrun, he, classify_batch_install_failure, hcr, hff, hpd, hrr, hul]

/-- Witness for claim C3, the spec's own scenario: a two-package install
whose combined command exits non-zero with stderr containing
"Permission denied" raises `PermissionError` immediately, with no
threshold logic applied. -/
theorem claim_C3_witness :
    batch_install_tools ["nmap","wireshark"] (fun _ => (100, "", "E: Permission denied"))
      = BatchOutcome.permissionError "Permission denied while installing tools. Please run as root." :=
  (claim_C3_batch_install_classification ["nmap","wireshark"]
    (fun _ => (100, "", "E: Permission denied"))
    100 "" "E: Permission denied" rfl rfl).2.2.2.1 (by decide) (by decide) (by decide) (by decide)

/-- Claim C4 counterexample: a package whose install fails with a
skippable stderr is NOT classified Skipped when a fallback strategy
succeeds — `install_single_tool` tries the fallback chain before the
skippability test, so the package is classified Success instead. -/
theorem claim_C4_counterexample :
    is_skippable_error "E: Unable to locate package xplico" = true
    ∧ install_single_tool ⟨"xplico", 100, "E: Unable to locate package xplico", true⟩
        = InstallClass.success
    ∧ install_single_tool ⟨"xplico", 100, "E: Unable to locate package xplico", true⟩
        ≠ InstallClass.skipped (get_error_reason "E: Unable to locate package xplico") := by decide

/-- Claim C4 as amended: in the parallel install path, a package whose
install command fails with a skippable stderr is classified Skipped
rather than Failed provided the fallback chain also fails (a successful
fallback yields Success instead, still not Failed); in either case the
package never enters the `failed_tools` list that feeds the overall
success decision. -/
theorem claim_C4_amended (r : ToolRun)
    (hs : sanitize_command ("apt install -y " ++ r.name) = Except.ok ("apt install -y " ++ r.name))
    (he : r.exitCode ≠ 0) (hf : r.fallbackOk = false) (hk : is_skippable_error r.stderr = true) :
    install_single_tool r = InstallClass.skipped (get_error_reason r.stderr)
    ∧ ∀ rs : List ToolRun, r ∉ failedList rs := by
  have hcls : install_single_tool r = InstallClass.skipped (get_error_reason r.stderr) := by
    simp [install_single_tool, hs, he, hf, hk]
  refine ⟨hcls, ?_⟩
  intro rs hmem
  rw [failedList, List.mem_filter] at hmem
  have h2 := hmem.2
  rw [hcls] at h2
  simp at h2

/-- Witness for the amended claim C4 at a concrete skippable failure
with no successful fallback. -/
theorem claim_C4_witness :
    install_single_tool ⟨"xplico", 100, "E: Unable to locate package xplico", false⟩
        = InstallClass.skipped (get_error_reason "E: Unable to locate package xplico")
    ∧ (⟨"xplico", 100, "E: Unable to locate package xplico", false⟩ : ToolRun)
        ∉ failedList [⟨"xplico", 100, "E: Unable to locate package xplico", false⟩] :=
  ⟨(claim_C4_amended ⟨"xplico", 100, "E: Unable to locate package xplico", false⟩
      rfl (by decide) rfl (by decide)).1,
   (claim_C4_amended ⟨"xplico", 100, "E: Unable to locate package xplico", false⟩
      rfl (by decide) rfl (by decide)).2
     [⟨"xplico", 100, "E: Unable to locate package xplico", false⟩]⟩

/-- Claim C5 counterexample: batch-installing the three packages
routes through the combined path (N = 3 is not parallel), and the
missing-package stderr makes the call raise a `ToolInstallationError`
naming the fake package — it does not return the claimed
BatchResult{total:3, succeeded:2, skipped:1, failed:0} with overall
success true. -/
theorem claim_C5_counterexample :
    install_tools ["nmap","wireshark","totally-fake-pkg-xyz"] c5Run (fun _ => false)
      = BatchOutcome.toolInstallationError
          "Package totally-fake-pkg-xyz not found in the repositories" []
    ∧ install_tools ["nmap","wireshark","totally-fake-pkg-xyz"] c5Run (fun _ => false)
      ≠ BatchOutcome.ok true := by decide

/-- Claim C5 as amended: a three-package install takes the combined
batch path, so when the combined command exits non-zero with stderr
containing "Unable to locate package totally-fake-pkg-xyz" (and no
network or permission substrings) the call raises a
`ToolInstallationError` naming totally-fake-pkg-xyz; no per-package
counts or success verdict are produced. -/
theorem claim_C5_amended (run : String → Nat × String × String) (fb : String → Bool)
    (e : Nat) (sout serr : String)
    (hrun : run (batch_install_cmd ["nmap","wireshark","totally-fake-pkg-xyz"]) = (e, sout, serr))
    (he : e ≠ 0)
    (hcr : strContains serr "Could not resolve" = false)
    (hff : strContains serr "Failed to fetch" = false)
    (hpd : strContains serr "Permission denied" = false)
    (hrr : strContains serr "requires root privileges" = false)
    (hul : strContains serr "Unable to locate package" = true)
    (hex : extract_unable_package serr = some "totally-fake-pkg-xyz") :
    install_tools ["nmap","wireshark","totally-fake-pkg-xyz"] run fb
      = BatchOutcome.toolInstallationError
          "Package totally-fake-pkg-xyz not found in the repositories" [] := by
  have hlen : (["nmap","wireshark","totally-fake-pkg-xyz"] : List String).length ≤ 3 := by decide
  rw [install_tools, if_pos hlen]
  have hok : sanitize_command (batch_install_cmd ["nmap","wireshark","totally-fake-pkg-xyz"])
      = Except.ok (batch_install_cmd ["nmap","wireshark","totally-fake-pkg-xyz"]) := rfl
  simp [batch_install_tools, hok, hrun, he, classify_batch_install_failure,
    hcr, hff, hpd, hrr, hul, hex]

/-- Witness for the amended claim C5 at the concrete environment
`c5Run`. -/
theorem claim_C5_witness :
    install_tools ["nmap","wireshark","totally-fake-pkg-xyz"] c5Run (fun _ => false)
      = BatchOutcome.toolInstallationError
          "Package totally-fake-pkg-xyz not found in the repositories" [] :=
  claim_C5_amended c5Run (fun _ => false) 100 "" "E: Unable to locate package totally-fake-pkg-xyz"
    rfl (by decide) (by decide) (by decide) (by decide) (by decide) (by decide) (by decide)

/-- Claim C6: removing an already-removed package set never produces a
Failed outcome.  In the parallel path, every package whose remove
command exits non-zero with stderr containing "is not installed" is
classified as not-installed (Skipped), and when every package is in
that state the call returns false without raising.  In the batch path,
a remove of ["foo"] whose command exits non-zero with that stderr (the
already-removed message, which contains no permission substrings)
returns false without raising. -/
theorem claim_C6_remove_idempotent :
    (∀ rs : List RemoveRun,
      (∀ r ∈ rs, sanitize_command ("apt remove -y " ++ r.name) = Except.ok ("apt remove -y " ++ r.name)
        ∧ r.exitCode ≠ 0 ∧ strContains r.stderr "is not installed" = true) →
      (∀ r ∈ rs, remove_single_tool r = RemoveClass.notInstalled)
      ∧ parallel_remove_tools rs = BatchOutcome.ok false)
    ∧ (∀ (run : String → Nat × String × String) (e : Nat) (sout serr : String),
        run (batch_remove_cmd ["foo"]) = (e, sout, serr) → e ≠ 0 →
        strContains serr "Permission denied" = false →
        strContains serr "requires root privileges" = false →
        strContains serr "is not installed" = true →
        remove_tools ["foo"] run = BatchOutcome.ok false) := by
  constructor
  · intro rs h
    have hcls : ∀ r ∈ rs, remove_single_tool r = RemoveClass.notInstalled := by
      intro r hr
      obtain ⟨h1, h2, h3⟩ := h r hr
      simp [remove_single_tool, h1, h2, h3]
    refine ⟨hcls, ?_⟩
    have hempty : removeFailedList rs = [] := by
      apply filter_nil_of_false
      intro r hr
      rw [hcls r hr]
    have hcount : notInstalledCount rs = rs.length := by
      unfold notInstalledCount
      rw [filter_all_of_true]
      intro r hr
      simp [hcls r hr]
    simp [parallel_remove_tools, hempty, hcount]
  · intro run e sout serr hrun he hpd hrr hni
    have hlen : (["foo"] : List String).length ≤ 3 := by decide
    rw [remove_tools, if_pos hlen]
    have hok : sanitize_command (batch_remove_cmd ["foo"]) = Except.ok (batch_remove_cmd ["foo"]) := rfl
    simp [batch_remove_tools, hok, hrun, he, hpd, hrr, hni]

/-- Witness for claim C6: a four-package already-removed parallel batch
is all-Skipped and returns false, and the spec's ["foo"] batch scenario
returns false without raising. -/
theorem claim_C6_witness :
    (∀ r ∈ ([⟨"p1",100,"Package p1 is not installed"⟩, ⟨"p2",100,"Package p2 is not installed"⟩,
        ⟨"p3",100,"Package p3 is not installed"⟩, ⟨"p4",100,"Package p4 is not installed"⟩] : List RemoveRun),
      remove_single_tool r = RemoveClass.notInstalled)
    ∧ parallel_remove_tools [⟨"p1",100,"Package p1 is not installed"⟩, ⟨"p2",100,"Package p2 is not installed"⟩,
        ⟨"p3",100,"Package p3 is not installed"⟩, ⟨"p4",100,"Package p4 is not installed"⟩]
      = BatchOutcome.ok false
    ∧ remove_tools ["foo"] (fun _ => (100, "", "Package foo is not installed, so not removed"))
      = BatchOutcome.ok false := by
  have h1 := claim_C6_remove_idempotent.1
    [⟨"p1",100,"Package p1 is not installed"⟩, ⟨"p2",100,"Package p2 is not installed"⟩,
     ⟨"p3",100,"Package p3 is not installed"⟩, ⟨"p4",100,"Package p4 is not installed"⟩]
    (by
      intro r hr
      simp only [List.mem_cons, List.not_mem_nil, or_false] at hr
      rcases hr with rfl | rfl | rfl | rfl
      · exact ⟨rfl, by decide, by decide⟩
      · exact ⟨rfl, by decide, by decide⟩
      · exact ⟨rfl, by decide, by decide⟩
      · exact ⟨rfl, by decide, by decide⟩)
  exact ⟨h1.1, h1.2,
    claim_C6_remove_idempotent.2 (fun _ => (100, "", "Package foo is not installed, so not removed"))
      100 "" "Package foo is not installed, so not removed" rfl
      (by decide) (by decide) (by decide) (by decide)⟩

/-- Claim C7 counterexample: for the remove verb the informational
bucket is not limited to "is not installed" — a non-zero exit whose
stderr contains "Unable to locate package" (and not "is not
installed") is also classified as informational not-installed, not
Failed, contradicting the claim's "only" and its "every other non-zero
exit is a Failed outcome". -/
theorem claim_C7_counterexample :
    remove_single_tool ⟨"foo", 100, "E: Unable to locate package foo"⟩ = RemoveClass.notInstalled
    ∧ strContains "E: Unable to locate package foo" "is not installed" = false
    ∧ RemoveClass.notInstalled ≠ RemoveClass.failed "E: Unable to locate package foo" := by decide

/-- Claim C7 as amended: for remove batches the informational stderr
outcomes are "Unable to locate package" and "is not installed"; for
upgrade batches only "is already the newest version"; every other
non-zero exit is a Failed outcome; and whenever at least one Failed
outcome exists the parallel coordinator raises a
`ToolInstallationError` listing all failed packages, with no
failure-rate tolerance for these verbs. -/
theorem claim_C7_amended :
    (∀ r : RemoveRun,
      sanitize_command ("apt remove -y " ++ r.name) = Except.ok ("apt remove -y " ++ r.name) →
      r.exitCode ≠ 0 →
      ((strContains r.stderr "Unable to locate package" = false →
        strContains r.stderr "is not installed" = false →
          remove_single_tool r = RemoveClass.failed r.stderr)
       ∧ (strContains r.stderr "Unable to locate package" = true ∨
          strContains r.stderr "is not installed" = true →
          remove_single_tool r = RemoveClass.notInstalled)))
    ∧ (∀ u : UpdateRun,
        sanitize_command ("apt install --only-upgrade -y " ++ u.name)
          = Except.ok ("apt install --only-upgrade -y " ++ u.name) →
        u.exitCode ≠ 0 →
        ((strContains u.stderr "is already the newest version" = false →
            update_single_tool u = UpdateClass.failed u.stderr)
         ∧ (strContains u.stderr "is already the newest version" = true →
            update_single_tool u = UpdateClass.alreadyNewest)))
    ∧ (∀ rs : List RemoveRun, removeFailedList rs ≠ [] →
        ∃ m, parallel_remove_tools rs
          = BatchOutcome.toolInstallationError m ((removeFailedList rs).map (fun r => r.name)))
    ∧ (∀ us : List UpdateRun, updateFailedList us ≠ [] →
        ∃ m, parallel_update_tools us
          = BatchOutcome.toolInstallationError m ((updateFailedList us).map (fun r => r.name))) := by
  refine ⟨?_, ?_, ?_, ?_⟩
  · intro r hs he
    constructor
    · intro h1 h2
      simp [remove_single_tool, hs, he, h1, h2]
    · intro h
      rcases h with h | h <;> simp [remove_single_tool, hs, he, h]
  · intro u hs he
    constructor
    · intro h1
      simp [update_single_tool, hs, he, h1]
    · intro h1
      simp [update_single_tool, hs, he, h1]
  · intro rs hne
    refine ⟨"Error during parallel removal: Failed to remove "
      ++ toString (removeFailedList rs).length ++ " out of " ++ toString rs.length ++ " tools", ?_⟩
    simp [parallel_remove_tools, hne]
  · intro us hne
    refine ⟨"Error during parallel update: Failed to update "
      ++ toString (updateFailedList us).length ++ " out of " ++ toString us.length ++ " tools", ?_⟩
    simp [parallel_update_tools, hne]

/-- Witness for the amended claim C7 on concrete generic failures of
the remove and upgrade verbs. -/
theorem claim_C7_witness :
    remove_single_tool ⟨"bar", 100, "E: weird failure"⟩ = RemoveClass.failed "E: weird failure"
    ∧ update_single_tool ⟨"baz", 100, "E: weird failure"⟩ = UpdateClass.failed "E: weird failure"
    ∧ (∃ m, parallel_remove_tools [⟨"bar",100,"E: weird failure"⟩]
        = BatchOutcome.toolInstallationError m
            ((removeFailedList [⟨"bar",100,"E: weird failure"⟩]).map (fun r => r.name)))
    ∧ (∃ m, parallel_update_tools [⟨"baz",100,"E: weird failure"⟩]
        = BatchOutcome.toolInstallationError m
            ((updateFailedList [⟨"baz",100,"E: weird failure"⟩]).map (fun r => r.name))) :=
  ⟨(claim_C7_amended.1 ⟨"bar",100,"E: weird failure"⟩ rfl (by decide)).1 (by decide) (by decide),
   (claim_C7_amended.2.1 ⟨"baz",100,"E: weird failure"⟩ rfl (by decide)).1 (by decide),
   claim_C7_amended.2.2.1 [⟨"bar",100,"E: weird failure"⟩] (by decide),
   claim_C7_amended.2.2.2 [⟨"baz",100,"E: weird failure"⟩] (by decide)⟩

/-- Claim C8: the per-package stderr classification is a deterministic
pure function of the stderr text — identical stderr always yields the
same skippable verdict and the same human-readable reason.  In this
embedding `is_skippable_error` and `get_error_reason` take only the
stderr string, mirroring the Python functions, which read no other
state. -/
theorem claim_C8_classification_deterministic (s t : String) (h : s = t) :
    is_skippable_error s = is_skippable_error t
    ∧ get_error_reason s = get_error_reason t := by
  subst h
  exact ⟨rfl, rfl⟩

/-- Witness for claim C8 at a concrete stderr text. -/
theorem claim_C8_witness :
    is_skippable_error "E: Unable to locate package nmap"
      = is_skippable_error "E: Unable to locate package nmap"
    ∧ get_error_reason "E: Unable to locate package nmap"
      = get_error_reason "E: Unable to locate package nmap" :=
  claim_C8_classification_deterministic
    "E: Unable to locate package nmap" "E: Unable to locate package nmap" rfl

/-- Claim C9: `sanitize_command` raises a `SecurityError` exactly when
the command contains one of the fixed dangerous substrings, and
otherwise returns the command unchanged, so `run_command` with its
default security check never alters a command before execution. -/
theorem claim_C9_sanitize_iff (c : String) :
    ((∃ e, sanitize_command c = Except.error e) ↔ ∃ p ∈ dangerousPatterns, strContains c p = true)
    ∧ ((∀ p ∈ dangerousPatterns, strContains c p = false) →
        sanitize_command c = Except.ok c ∧ run_command_checked c true = Except.ok c) := by
  constructor
  · constructor
    · rintro ⟨e, he⟩
      unfold sanitize_command at he
      cases hf : dangerousPatterns.find? (fun p => strContains c p) with
      | none => rw [hf] at he; cases he
      | some p => exact ⟨p, List.mem_of_find?_eq_some hf, List.find?_some hf⟩
    · rintro ⟨p, hmem, hp⟩
      unfold sanitize_command
      cases hf : dangerousPatterns.find? (fun p => strContains c p) with
      | none =>
        have := List.find?_eq_none.mp hf p hmem
        simp [hp] at this
      | some q => exact ⟨_, rfl⟩
  · intro hall
    have hf : dangerousPatterns.find? (fun p => strContains c p) = none := by
      apply List.find?_eq_none.mpr
      intro x hx
      simp [hall x hx]
    refine ⟨?_, ?_⟩
    · unfold sanitize_command; rw [hf]
    · unfold run_command_checked sanitize_command; rw [hf]; rfl

/-- Witness for claim C9: a benign apt command contains no dangerous
pattern and passes through unchanged. -/
theorem claim_C9_witness :
    sanitize_command "apt install -y nmap" = Except.ok "apt install -y nmap"
    ∧ run_command_checked "apt install -y nmap" true = Except.ok "apt install -y nmap" :=
  (claim_C9_sanitize_iff "apt install -y nmap").2 (by decide)

/-- Claim C10: for every tool name the command built by
`check_installed` contains the dangerous substrings ">" (from
"2>/dev/null") and "|" (the pipe to grep), so `run_command`'s default
security check raises a `SecurityError` before execution, which the
generic handler converts into a `ToolInstallationError`; the function
never returns a boolean. -/
theorem claim_C10_check_installed_always_raises (run : String → Nat) (tool : String) :
    strContains (check_installed_cmd tool) ">" = true
    ∧ strContains (check_installed_cmd tool) "|" = true
    ∧ ∃ msg, check_installed run tool = CheckResult.toolError msg := by
  have hdata : (check_installed_cmd tool).data
      = ("dpkg -s ").data ++ (tool.data ++ dpkgTail.data) := by
    simp [check_installed_cmd, String.data_append]
  have hgt : strContains (check_installed_cmd tool) ">" = true := by
    unfold strContains
    rw [hdata]
    exact charsContain_append_right _ _ _ (charsContain_append_right _ _ _ (by decide))
  have hpipe : strContains (check_installed_cmd tool) "|" = true := by
    unfold strContains
    rw [hdata]
    exact charsContain_append_right _ _ _ (charsContain_append_right _ _ _ (by decide))
  refine ⟨hgt, hpipe, ?_⟩
  obtain ⟨b, hb⟩ := find?_isSome_of_pred dangerousPatterns
    (fun p => strContains (check_installed_cmd tool) p) ">" (by decide) hgt
  have hsan : sanitize_command (check_installed_cmd tool)
      = Except.error ("Command contains potentially dangerous pattern: " ++ b) := by
    unfold sanitize_command; rw [hb]
  refine ⟨"Error checking if tool " ++ tool ++ " is installed: "
      ++ ("Command contains potentially dangerous pattern: " ++ b), ?_⟩
  simp [check_installed, run_command_checked, hsan]

/-- Witness for claim C10 at a concrete tool name and environment. -/
theorem claim_C10_witness :
    strContains (check_installed_cmd "nmap") ">" = true
    ∧ strContains (check_installed_cmd "nmap") "|" = true
    ∧ ∃ msg, check_installed (fun _ => 0) "nmap" = CheckResult.toolError msg :=
  claim_C10_check_installed_always_raises (fun _ => 0) "nmap"
